import Mathlib

/-!
Verification development for the MiHome-to-MQTT bridge
(src/src/mihome-to-mqtt.py), a shallow embedding of its decoding,
topic-building, connection-handling and shutdown logic, together with
theorems about the testable properties of its specification.

Modelling conventions:
- OpenThings parameter identifiers are compared only for equality in the
  source, so they are embedded as an enumeration with a catch-all
  constructor for every parameter kind the script does not recognise.
- Numeric telemetry values (Python int or float) are embedded as rationals.
- The clock calls inside getDataFromMessage (time.time() and
  datetime.now().isoformat()) are hoisted into explicit parameters.
- Python None becomes Option.none.
-/

/-- Parameter kinds of an OpenThings record. The nine named constructors are
the OpenThings.PARAM_* constants the script matches on (lines 256-283);
every other parameter identifier is embedded as an unrecognised code. -/
inductive ParamKind
  | switchState
  | doorSensor
  | voltage
  | frequency
  | reactivePower
  | realPower
  | apparentPower
  | current
  | temperature
  | unrecognised (code : Nat)
deriving DecidableEq

/-- One entry of msg [recs]: a parameter id plus, when the key is present,
its value (which may itself be None). The outer Option models whether the
value key exists at all; the try/except at lines 251-254 collapses a
missing key to None. -/
structure ParamRec where
  paramid : ParamKind
  value? : Option (Option ℚ)
deriving DecidableEq

/-- The value the script extracts from a record: rec [value] when the key is
present, None otherwise (lines 251-254). -/
def recValue (r : ParamRec) : Option ℚ :=
  match r.value? with
  | some v => v
  | none => none

/-- The header of an incoming OpenThings message (lines 230-233). -/
structure RawHeader where
  mfrid : Nat
  productid : Nat
  sensorid : Nat
deriving DecidableEq

/-- An incoming message: header plus ordered list of parameter records. -/
structure RawEvent where
  header : RawHeader
  recs : List ParamRec
deriving DecidableEq

/-! Device catalog constants, as documented in the script header
(lines 58-70) and used via energenie.Devices. -/

def MFRID_ENERGENIE : Nat := 4
def PRODUCTID_MIHO004 : Nat := 1
def PRODUCTID_MIHO005 : Nat := 2
def PRODUCTID_MIHO013 : Nat := 3
def PRODUCTID_MIHO006 : Nat := 5
def PRODUCTID_MIHO032 : Nat := 12
def PRODUCTID_MIHO033 : Nat := 13

/-- manufIdToName (lines 339-343). -/
def manufIdToName (manufId : Nat) : Option String :=
  if manufId = MFRID_ENERGENIE then some ("Energenie") else none

/-- prodIdToCode (lines 345-359). -/
def prodIdToCode (prodId : Nat) : Option String :=
  if prodId = PRODUCTID_MIHO004 then some ("MIHO004")
  else if prodId = PRODUCTID_MIHO005 then some ("MIHO005")
  else if prodId = PRODUCTID_MIHO006 then some ("MIHO006")
  else if prodId = PRODUCTID_MIHO013 then some ("MIHO013")
  else if prodId = PRODUCTID_MIHO032 then some ("MIHO032")
  else if prodId = PRODUCTID_MIHO033 then some ("MIHO033")
  else none

/-- prodIdToName (lines 361-375). -/
def prodIdToName (prodId : Nat) : Option String :=
  if prodId = PRODUCTID_MIHO004 then some ("Monitor")
  else if prodId = PRODUCTID_MIHO005 then some ("AdaptorPlus")
  else if prodId = PRODUCTID_MIHO006 then some ("HomeMonitor")
  else if prodId = PRODUCTID_MIHO013 then some ("eTRV")
  else if prodId = PRODUCTID_MIHO032 then some ("MotionSensor")
  else if prodId = PRODUCTID_MIHO033 then some ("OpenSensor")
  else none

/-- The mutable locals of getDataFromMessage during the extraction loop:
the eight-element flags list (lines 238, one field per index) and the eight
telemetry variables initialised to None (lines 239-246). -/
structure DecodeState where
  flag0 : Bool
  flag1 : Bool
  flag2 : Bool
  flag3 : Bool
  flag4 : Bool
  flag5 : Bool
  flag6 : Bool
  flag7 : Bool
  switch : Option ℚ
  voltage : Option ℚ
  freq : Option ℚ
  reactive : Option ℚ
  real : Option ℚ
  apparent : Option ℚ
  current : Option ℚ
  temperature : Option ℚ
deriving DecidableEq

/-- Initial decode state: flags = [False]*8, all telemetry variables None
(lines 238-246). -/
def initialDecodeState : DecodeState :=
  { flag0 := false, flag1 := false, flag2 := false, flag3 := false
    flag4 := false, flag5 := false, flag6 := false, flag7 := false
    switch := none, voltage := none, freq := none, reactive := none
    real := none, apparent := none, current := none, temperature := none }

/-- One iteration of the extraction loop (lines 249-283): match the
parameter id against the fixed table, set the flag and value for its slot;
switch-state and door-sensor share slot 0; anything else is ignored. -/
def decodeStep (s : DecodeState) (r : ParamRec) : DecodeState :=
  let value := recValue r
  match r.paramid with
  | .switchState => { s with flag0 := true, switch := value }
  | .doorSensor => { s with flag0 := true, switch := value }
  | .voltage => { s with flag1 := true, voltage := value }
  | .frequency => { s with flag2 := true, freq := value }
  | .reactivePower => { s with flag3 := true, reactive := value }
  | .realPower => { s with flag4 := true, real := value }
  | .apparentPower => { s with flag5 := true, apparent := value }
  | .current => { s with flag6 := true, current := value }
  | .temperature => { s with flag7 := true, temperature := value }
  | .unrecognised _ => s

/-- The dictionary returned by getDataFromMessage (lines 305-333). -/
structure CanonicalRecord where
  Timestamp : ℚ
  DateTime : String
  Source : String
  ManufacturerID : Nat
  ManufacturerName : Option String
  ProductID : Nat
  ProductCode : Option String
  ProductName : Option String
  SensorID : Nat
  HasSwitch : Bool
  HasVoltage : Bool
  HasFrequency : Bool
  HasReactivePower : Bool
  HasRealPower : Bool
  HasApparentPower : Bool
  HasCurrent : Bool
  HasTemperature : Bool
  SwitchState : Option ℚ
  Voltage : Option ℚ
  Frequency : Option ℚ
  RealPower : Option ℚ
  ApparentPower : Option ℚ
  ReactivePower : Option ℚ
  Current : Option ℚ
  Temperature : Option ℚ
deriving DecidableEq

/-- getDataFromMessage (lines 223-333). The two clock reads and the
mihomeListenerName global are passed in as timestamp, isodate and
sourceLabel. -/
def getDataFromMessage (timestamp : ℚ) (isodate : String) (sourceLabel : String)
    (msg : RawEvent) : CanonicalRecord :=
  let header := msg.header
  let manufId := header.mfrid
  let prodId := header.productid
  let sensorId := header.sensorid
  let s := msg.recs.foldl decodeStep initialDecodeState
  let manufName := manufIdToName manufId
  let prodCode := prodIdToCode prodId
  let prodName := prodIdToName prodId
  { Timestamp := timestamp
    DateTime := isodate
    Source := sourceLabel
    ManufacturerID := manufId
    ManufacturerName := manufName
    ProductID := prodId
    ProductCode := prodCode
    ProductName := prodName
    SensorID := sensorId
    HasSwitch := s.flag0
    HasVoltage := s.flag1
    HasFrequency := s.flag2
    HasReactivePower := s.flag3
    HasRealPower := s.flag4
    HasApparentPower := s.flag5
    HasCurrent := s.flag6
    HasTemperature := s.flag7
    SwitchState := s.switch
    Voltage := s.voltage
    Frequency := s.freq
    RealPower := s.real
    ApparentPower := s.apparent
    ReactivePower := s.reactive
    Current := s.current
    Temperature := s.temperature }

/-- Default MQTT topic prefix (line 125). -/
def mqttTopic : String := "energenie"

/-- The topic string built by energenie_incoming (lines 391-403): the
configured prefix followed by the six identity components, with UNKNOWN
substituted for each unresolved name or code. -/
def buildTopic (topicPrefix : String) (data : CanonicalRecord) : String :=
  let topicManufName := match data.ManufacturerName with
    | none => "UNKNOWN"
    | some n => n
  let topicProdCode := match data.ProductCode with
    | none => "UNKNOWN"
    | some c => c
  let topicProdName := match data.ProductName with
    | none => "UNKNOWN"
    | some n => n
  topicPrefix ++ "/" ++ toString data.ManufacturerID ++ "/" ++ topicManufName
    ++ "/" ++ toString data.ProductID ++ "/" ++ topicProdCode
    ++ "/" ++ topicProdName ++ "/" ++ toString data.SensorID

/-- Observable outcome of the mqttOnConnect callback: the lines written to
stderr, in order, and the process exit status when the callback calls
exit (exit with a message string exits with status 1). -/
structure ConnectHandlerResult where
  logs : List String
  exitCode : Option Nat
deriving DecidableEq

/-- mqttOnConnect (lines 191-215): rc 0 logs success; rc 1, 2, 4 and 5 log
the refusal reason, set permafail and exit with status 1; rc 3 (server
unavailable) only logs, leaving the paho client loop to reconnect; any
other rc logs an unrecognised-code line and also does not exit. -/
def mqttOnConnect (rc : Nat) : ConnectHandlerResult :=
  if rc = 0 then
    { logs := ["MQTT connected!"], exitCode := none }
  else
    let msgPermafail : String × Bool :=
      if rc = 1 then
        ("MQTT connection failed; code " ++ toString rc
          ++ ": refused - incorrect protocol version", true)
      else if rc = 2 then
        ("MQTT connection failed; code " ++ toString rc
          ++ ": refused - invalid client identifier", true)
      else if rc = 3 then
        ("MQTT connection failed; code " ++ toString rc
          ++ ": refused - server unavailable", false)
      else if rc = 4 then
        ("MQTT connection failed; code " ++ toString rc
          ++ ": refused - bad username or password", true)
      else if rc = 5 then
        ("MQTT connection failed; code " ++ toString rc
          ++ ": refused - not authorised", true)
      else
        ("MQTT connection failed with unrecognised error code \x27"
          ++ toString rc ++ "\x27!", false)
    if msgPermafail.2 then
      { logs := [msgPermafail.1, "Permanent connection failure reason. Exiting."]
        exitCode := some 1 }
    else
      { logs := [msgPermafail.1], exitCode := none }

/-- The two protocol version tags the script supports (line 122 default,
lines 157-168 override). -/
inductive MqttProtoVersion
  | MQTTv31
  | MQTTv311
deriving DecidableEq

/-- Outcome of handling the MQTT_PROTO_VERSION environment variable:
either a protocol version to use, or a fatal startup exit (exit with a
message writes it to stderr and exits with status 1). -/
inductive ProtoVersionResult
  | ok (v : MqttProtoVersion)
  | fatalExit (msg : String) (code : Nat)
deriving DecidableEq

/-- Character-wise lowercasing, the embedding of the str.lower() calls at
lines 161 and 163. -/
def strLower (s : String) : String := ⟨s.data.map Char.toLower⟩

/-- MQTT_PROTO_VERSION handling (lines 122 and 157-168): absent keeps the
default MQTTv311; present, the value is lowercased and compared with
mqttv31 and mqttv311; anything else calls exit with a diagnostic. -/
def parseMqttProtoVersion : Option String → ProtoVersionResult
  | none => .ok .MQTTv311
  | some envProtoVersion =>
    if strLower envProtoVersion = "mqttv31" then .ok .MQTTv31
    else if strLower envProtoVersion = "mqttv311" then .ok .MQTTv311
    else
      .fatalExit ("MQTT_PROTO_VERSION env var must be \x27MQTTv31\x27 or \x27MQTTv311\x27, not \x27"
        ++ envProtoVersion ++ "\x27!") 1

/-- Actions observable during shutdown of the main loop. Teardown is the
energenie.finished() call in the finally block (line 486); a Publisher
disconnect would be an mqttClient.disconnect() or loop_stop() call, which
the script never makes. -/
inductive ShutdownAction
  | logLine (s : String)
  | deviceTeardown
  | publisherDisconnect
  | processExit (code : Nat)
deriving DecidableEq

/-- The ways control can leave the while True loop of lines 466-474:
a KeyboardInterrupt, or any other exception raised inside the loop body.
The loop has no normal termination. -/
inductive LoopExitCause
  | interrupt
  | runtimeError
deriving DecidableEq

/-- The try/except KeyboardInterrupt/finally block of lines 466-486, as the
ordered list of shutdown actions for each exit cause. On interrupt the
except clause logs and raises SystemExit 0, the finally clause then runs
energenie.finished() before the process exits 0. On any other exception the
finally clause runs energenie.finished() and the exception propagates, so
the interpreter exits with status 1. No path disconnects the MQTT client. -/
def eventLoopShutdown : LoopExitCause → List ShutdownAction
  | .interrupt =>
    [.logLine ("Interrupted. Exiting."), .deviceTeardown, .processExit 0]
  | .runtimeError =>
    [.deviceTeardown, .processExit 1]

/-- Whether a record hits slot 0 of the extraction loop, the slot shared by
switch-state and door-sensor (lines 256-261). -/
def isSwitchLike (r : ParamRec) : Bool :=
  match r.paramid with
  | .switchState => true
  | .doorSensor => true
  | _ => false

/-- Whether a record carries one of the nine parameter kinds the extraction
loop recognises. -/
def isKnownParam (r : ParamRec) : Bool :=
  match r.paramid with
  | .unrecognised _ => false
  | _ => true

/-! Helper lemmas about the extraction loop. -/

lemma foldl_decodeStep_preserve {α : Type} (f : DecodeState → α) (bad : ParamKind → Prop)
    (hstep : ∀ s a, ¬ bad a.paramid → f (decodeStep s a) = f s)
    (l : List ParamRec) (s : DecodeState) (h : ∀ r ∈ l, ¬ bad r.paramid) :
    f (l.foldl decodeStep s) = f s := by
  induction l generalizing s with
  | nil => rfl
  | cons a l ih =>
    rw [List.foldl_cons, ih (decodeStep s a) (fun r hr => h r (List.mem_cons_of_mem a hr)),
      hstep s a (h a (List.mem_cons_self a l))]

lemma decodeStep_not_switchLike (s : DecodeState) (a : ParamRec)
    (h : isSwitchLike a = false) :
    (decodeStep s a).flag0 = s.flag0 ∧ (decodeStep s a).switch = s.switch := by
  obtain ⟨k, v⟩ := a
  cases k <;> simp_all [decodeStep, isSwitchLike]

lemma decodeStep_switchLike (s : DecodeState) (a : ParamRec)
    (h : isSwitchLike a = true) :
    (decodeStep s a).flag0 = true ∧ (decodeStep s a).switch = recValue a := by
  obtain ⟨k, v⟩ := a
  cases k <;> simp_all [decodeStep, isSwitchLike, recValue]

lemma foldl_decodeStep_switch_last (l : List ParamRec) (s : DecodeState) (r : ParamRec)
    (h : (l.filter isSwitchLike).getLast? = some r) :
    (l.foldl decodeStep s).flag0 = true ∧ (l.foldl decodeStep s).switch = recValue r := by
  induction l using List.reverseRecOn with
  | nil => simp at h
  | append_singleton l a ih =>
    rw [List.foldl_append]
    by_cases ha : isSwitchLike a
    · have h1 : (l ++ [a]).filter isSwitchLike = l.filter isSwitchLike ++ [a] := by
        rw [List.filter_append]
        simp [List.filter_cons, ha]
      rw [h1, List.getLast?_concat] at h
      have hr : r = a := by injection h.symm
      rw [hr]
      exact decodeStep_switchLike (l.foldl decodeStep s) a ha
    · have ha' : isSwitchLike a = false := by simpa using ha
      have h1 : (l ++ [a]).filter isSwitchLike = l.filter isSwitchLike := by
        rw [List.filter_append]
        simp [List.filter_cons, ha']
      rw [h1] at h
      have hstep := decodeStep_not_switchLike (l.foldl decodeStep s) a ha'
      have hrec := ih h
      exact ⟨hstep.1.trans hrec.1, hstep.2.trans hrec.2⟩

lemma decodeStep_unrecognised (s : DecodeState) (a : ParamRec)
    (h : isKnownParam a = false) : decodeStep s a = s := by
  obtain ⟨k, v⟩ := a
  cases k <;> simp_all [decodeStep, isKnownParam]

lemma foldl_decodeStep_filter_known (l : List ParamRec) (s : DecodeState) :
    (l.filter isKnownParam).foldl decodeStep s = l.foldl decodeStep s := by
  induction l generalizing s with
  | nil => rfl
  | cons a l ih =>
    by_cases hk : isKnownParam a
    · rw [List.filter_cons_of_pos hk, List.foldl_cons, List.foldl_cons, ih]
    · have hk' : isKnownParam a = false := by simpa using hk
      rw [List.filter_cons_of_neg (by simp [hk']), List.foldl_cons,
        decodeStep_unrecognised s a hk', ih]

/-! Claim theorems. -/

/-- The RawEvent of the end-to-end scenario: manufacturer 4, product 2,
sensor 16777210, pairs voltage 244, frequency 49.8, real power 4. -/
def c1Event : RawEvent :=
  { header := { mfrid := 4, productid := 2, sensorid := 16777210 }
    recs := [ { paramid := .voltage, value? := some (some 244) }
            , { paramid := .frequency, value? := some (some (49.8 : ℚ)) }
            , { paramid := .realPower, value? := some (some 4) } ] }

/-- C1: decoding the RawEvent with manufacturer 4, product 2, sensor
16777210 and pairs voltage 244, frequency 49.8, real power 4 yields a
record with exactly the voltage, frequency and real-power flags set and
those values present, every other flag false and value absent, and the
topic built for it under the default prefix is
energenie/4/Energenie/2/MIHO005/AdaptorPlus/16777210. -/
theorem decode_topic_end_to_end (ts : ℚ) (iso src : String) :
    (getDataFromMessage ts iso src c1Event).HasVoltage = true
    ∧ (getDataFromMessage ts iso src c1Event).Voltage = some 244
    ∧ (getDataFromMessage ts iso src c1Event).HasFrequency = true
    ∧ (getDataFromMessage ts iso src c1Event).Frequency = some (49.8 : ℚ)
    ∧ (getDataFromMessage ts iso src c1Event).HasRealPower = true
    ∧ (getDataFromMessage ts iso src c1Event).RealPower = some 4
    ∧ (getDataFromMessage ts iso src c1Event).HasSwitch = false
    ∧ (getDataFromMessage ts iso src c1Event).SwitchState = none
    ∧ (getDataFromMessage ts iso src c1Event).HasReactivePower = false
    ∧ (getDataFromMessage ts iso src c1Event).ReactivePower = none
    ∧ (getDataFromMessage ts iso src c1Event).HasApparentPower = false
    ∧ (getDataFromMessage ts iso src c1Event).ApparentPower = none
    ∧ (getDataFromMessage ts iso src c1Event).HasCurrent = false
    ∧ (getDataFromMessage ts iso src c1Event).Current = none
    ∧ (getDataFromMessage ts iso src c1Event).HasTemperature = false
    ∧ (getDataFromMessage ts iso src c1Event).Temperature = none
    ∧ buildTopic mqttTopic (getDataFromMessage ts iso src c1Event)
      = "energenie/4/Energenie/2/MIHO005/AdaptorPlus/16777210" := by
  refine ⟨rfl, rfl, rfl, rfl, rfl, rfl, rfl, rfl, rfl, rfl, rfl, rfl, rfl, rfl, rfl, rfl, ?_⟩
  have h : buildTopic mqttTopic (getDataFromMessage ts iso src c1Event)
      = buildTopic mqttTopic (getDataFromMessage 0 "" "" c1Event) := rfl
  rw [h]
  rfl

/-- C2 counterexample: on the interrupt exit path of the main loop the MQTT
client is never disconnected, so the claim that both device teardown and
Publisher disconnect run on every exit path is false. -/
theorem eventLoop_no_publisher_disconnect :
    ShutdownAction.publisherDisconnect ∉ eventLoopShutdown LoopExitCause.interrupt := by
  decide

/-- C2 amended: on every exit path of the main loop, device-source teardown
(energenie.finished in the finally block) runs before process exit, but the
Publisher disconnect never runs on any path: the script contains no
mqttClient.disconnect or loop_stop call. -/
theorem eventLoop_teardown_every_path (c : LoopExitCause) :
    ShutdownAction.deviceTeardown ∈ eventLoopShutdown c
    ∧ ShutdownAction.publisherDisconnect ∉ eventLoopShutdown c := by
  cases c <;> exact ⟨by decide, by decide⟩

/-- C3: when a RawEvent contains both a switch-state pair and a door-sensor
pair, the decoded switch/contact value is that of the last slot-0 pair in
the input order, and presence flag 0 (HasSwitch) is true. -/
theorem decode_switch_door_last_wins (ts : ℚ) (iso src : String) (ev : RawEvent)
    (r : ParamRec)
    (_hsw : ∃ a ∈ ev.recs, a.paramid = ParamKind.switchState)
    (_hdoor : ∃ b ∈ ev.recs, b.paramid = ParamKind.doorSensor)
    (hlast : (ev.recs.filter isSwitchLike).getLast? = some r) :
    (getDataFromMessage ts iso src ev).HasSwitch = true
    ∧ (getDataFromMessage ts iso src ev).SwitchState = recValue r := by
  have h := foldl_decodeStep_switch_last ev.recs initialDecodeState r hlast
  exact ⟨h.1, h.2⟩

/-- The concrete event used to witness the last-wins theorem: a switch-state
pair with value 1 followed by a door-sensor pair with value 0. -/
def switchDoorEvent : RawEvent :=
  { header := { mfrid := 4, productid := 13, sensorid := 77 }
    recs := [ { paramid := .switchState, value? := some (some 1) }
            , { paramid := .doorSensor, value? := some (some 0) } ] }

/-- Witness for C3 at a concrete input: with a switch-state pair then a
door-sensor pair, the door-sensor value 0 wins and the flag is true. -/
theorem decode_switch_door_last_wins_witness :
    (getDataFromMessage 0 "" "" switchDoorEvent).HasSwitch = true
    ∧ (getDataFromMessage 0 "" "" switchDoorEvent).SwitchState
      = recValue { paramid := .doorSensor, value? := some (some 0) } :=
  decode_switch_door_last_wins 0 "" "" switchDoorEvent
    { paramid := .doorSensor, value? := some (some 0) }
    (by decide) (by decide) (by decide)

/-- A RawEvent with a single door-sensor pair and no switch-state pair. -/
def doorOnlyEvent : RawEvent :=
  { header := { mfrid := 4, productid := 13, sensorid := 5 }
    recs := [ { paramid := .doorSensor, value? := some (some 1) } ] }

/-- C4 counterexample: for the kind switch-state the claim fails, because
door-sensor shares slot 0: an event with a door-sensor pair and no
switch-state pair still gets flag 0 true and a present switch value. -/
theorem decode_absent_kind_counterexample :
    (∀ r ∈ doorOnlyEvent.recs, r.paramid ≠ ParamKind.switchState)
    ∧ (getDataFromMessage 0 "" "" doorOnlyEvent).HasSwitch = true
    ∧ (getDataFromMessage 0 "" "" doorOnlyEvent).SwitchState ≠ none := by
  decide

/-- C4 amended: per value slot of the mapping table, if a RawEvent contains
no parameter pair of any kind mapping to that slot (for the shared
switch/contact slot: neither switch-state nor door-sensor; for each other
slot: its single kind), the slot value is absent and its flag false. -/
theorem decode_absent_slot (ts : ℚ) (iso src : String) (ev : RawEvent) :
    ((∀ r ∈ ev.recs, r.paramid ≠ ParamKind.switchState ∧ r.paramid ≠ ParamKind.doorSensor) →
      (getDataFromMessage ts iso src ev).HasSwitch = false
      ∧ (getDataFromMessage ts iso src ev).SwitchState = none)
    ∧ ((∀ r ∈ ev.recs, r.paramid ≠ ParamKind.voltage) →
      (getDataFromMessage ts iso src ev).HasVoltage = false
      ∧ (getDataFromMessage ts iso src ev).Voltage = none)
    ∧ ((∀ r ∈ ev.recs, r.paramid ≠ ParamKind.frequency) →
      (getDataFromMessage ts iso src ev).HasFrequency = false
      ∧ (getDataFromMessage ts iso src ev).Frequency = none)
    ∧ ((∀ r ∈ ev.recs, r.paramid ≠ ParamKind.reactivePower) →
      (getDataFromMessage ts iso src ev).HasReactivePower = false
      ∧ (getDataFromMessage ts iso src ev).ReactivePower = none)
    ∧ ((∀ r ∈ ev.recs, r.paramid ≠ ParamKind.realPower) →
      (getDataFromMessage ts iso src ev).HasRealPower = false
      ∧ (getDataFromMessage ts iso src ev).RealPower = none)
    ∧ ((∀ r ∈ ev.recs, r.paramid ≠ ParamKind.apparentPower) →
      (getDataFromMessage ts iso src ev).HasApparentPower = false
      ∧ (getDataFromMessage ts iso src ev).ApparentPower = none)
    ∧ ((∀ r ∈ ev.recs, r.paramid ≠ ParamKind.current) →
      (getDataFromMessage ts iso src ev).HasCurrent = false
      ∧ (getDataFromMessage ts iso src ev).Current = none)
    ∧ ((∀ r ∈ ev.recs, r.paramid ≠ ParamKind.temperature) →
      (getDataFromMessage ts iso src ev).HasTemperature = false
      ∧ (getDataFromMessage ts iso src ev).Temperature = none) := by
  refine ⟨?_, ?_, ?_, ?_, ?_, ?_, ?_, ?_⟩
  · intro h
    have hp := foldl_decodeStep_preserve (fun st => (st.flag0, st.switch))
      (fun k => k = ParamKind.switchState ∨ k = ParamKind.doorSensor)
      (by
        intro s a ha
        obtain ⟨k, v⟩ := a
        cases k <;> simp_all [decodeStep])
      ev.recs initialDecodeState
      (by
        intro r hr
        have := h r hr
        tauto)
    exact ⟨congrArg Prod.fst hp, congrArg Prod.snd hp⟩
  · intro h
    have hp := foldl_decodeStep_preserve (fun st => (st.flag1, st.voltage))
      (fun k => k = ParamKind.voltage)
      (by
        intro s a ha
        obtain ⟨k, v⟩ := a
        cases k <;> simp_all [decodeStep])
      ev.recs initialDecodeState (fun r hr => h r hr)
    exact ⟨congrArg Prod.fst hp, congrArg Prod.snd hp⟩
  · intro h
    have hp := foldl_decodeStep_preserve (fun st => (st.flag2, st.freq))
      (fun k => k = ParamKind.frequency)
      (by
        intro s a ha
        obtain ⟨k, v⟩ := a
        cases k <;> simp_all [decodeStep])
      ev.recs initialDecodeState (fun r hr => h r hr)
    exact ⟨congrArg Prod.fst hp, congrArg Prod.snd hp⟩
  · intro h
    have hp := foldl_decodeStep_preserve (fun st => (st.flag3, st.reactive))
      (fun k => k = ParamKind.reactivePower)
      (by
        intro s a ha
        obtain ⟨k, v⟩ := a
        cases k <;> simp_all [decodeStep])
      ev.recs initialDecodeState (fun r hr => h r hr)
    exact ⟨congrArg Prod.fst hp, congrArg Prod.snd hp⟩
  · intro h
    have hp := foldl_decodeStep_preserve (fun st => (st.flag4, st.real))
      (fun k => k = ParamKind.realPower)
      (by
        intro s a ha
        obtain ⟨k, v⟩ := a
        cases k <;> simp_all [decodeStep])
      ev.recs initialDecodeState (fun r hr => h r hr)
    exact ⟨congrArg Prod.fst hp, congrArg Prod.snd hp⟩
  · intro h
    have hp := foldl_decodeStep_preserve (fun st => (st.flag5, st.apparent))
      (fun k => k = ParamKind.apparentPower)
      (by
        intro s a ha
        obtain ⟨k, v⟩ := a
        cases k <;> simp_all [decodeStep])
      ev.recs initialDecodeState (fun r hr => h r hr)
    exact ⟨congrArg Prod.fst hp, congrArg Prod.snd hp⟩
  · intro h
    have hp := foldl_decodeStep_preserve (fun st => (st.flag6, st.current))
      (fun k => k = ParamKind.current)
      (by
        intro s a ha
        obtain ⟨k, v⟩ := a
        cases k <;> simp_all [decodeStep])
      ev.recs initialDecodeState (fun r hr => h r hr)
    exact ⟨congrArg Prod.fst hp, congrArg Prod.snd hp⟩
  · intro h
    have hp := foldl_decodeStep_preserve (fun st => (st.flag7, st.temperature))
      (fun k => k = ParamKind.temperature)
      (by
        intro s a ha
        obtain ⟨k, v⟩ := a
        cases k <;> simp_all [decodeStep])
      ev.recs initialDecodeState (fun r hr => h r hr)
    exact ⟨congrArg Prod.fst hp, congrArg Prod.snd hp⟩

/-- A RawEvent whose only pair carries an unrecognised parameter kind. -/
def unrecEvent : RawEvent :=
  { header := { mfrid := 4, productid := 1, sensorid := 9 }
    recs := [ { paramid := .unrecognised 255, value? := some (some 3) } ] }

/-- Witness for the amended C4 at a concrete input: an event whose only
pair is an unrecognised kind leaves every slot absent and every flag
false. -/
theorem decode_absent_slot_witness :
    (getDataFromMessage 0 "" "" unrecEvent).HasSwitch = false
    ∧ (getDataFromMessage 0 "" "" unrecEvent).SwitchState = none
    ∧ (getDataFromMessage 0 "" "" unrecEvent).HasVoltage = false
    ∧ (getDataFromMessage 0 "" "" unrecEvent).Voltage = none
    ∧ (getDataFromMessage 0 "" "" unrecEvent).HasTemperature = false
    ∧ (getDataFromMessage 0 "" "" unrecEvent).Temperature = none := by
  obtain ⟨h0, h1, h2, h3, h4, h5, h6, h7⟩ := decode_absent_slot 0 "" "" unrecEvent
  have c0 := h0 (by decide)
  have c1 := h1 (by decide)
  have c7 := h7 (by decide)
  exact ⟨c0.1, c0.2, c1.1, c1.2, c7.1, c7.2⟩

/-- C5: buildTopic is a total function of prefix and record, equal to the
slash-joined string with the literal UNKNOWN substituted for each absent
identity component, and on the record decoded from manufacturer 99
(unknown), product 1, sensor 1337 it yields
energenie/99/UNKNOWN/1/MIHO004/Monitor/1337 under the default prefix. -/
theorem buildTopic_total_unknown (tp : String) (data : CanonicalRecord) :
    buildTopic tp data
      = tp ++ "/" ++ toString data.ManufacturerID ++ "/"
        ++ data.ManufacturerName.getD ("UNKNOWN") ++ "/" ++ toString data.ProductID
        ++ "/" ++ data.ProductCode.getD ("UNKNOWN") ++ "/"
        ++ data.ProductName.getD ("UNKNOWN") ++ "/" ++ toString data.SensorID
    ∧ buildTopic mqttTopic (getDataFromMessage 0 "1970-01-01T00:00:00+00:00" "host"
        { header := { mfrid := 99, productid := 1, sensorid := 1337 }, recs := [] })
      = "energenie/99/UNKNOWN/1/MIHO004/Monitor/1337" := by
  constructor
  · cases hm : data.ManufacturerName <;> cases hc : data.ProductCode <;>
      cases hn : data.ProductName <;> simp [buildTopic, hm, hc, hn, Option.getD]
  · rfl

/-- C6: decoding is total and ignores what it does not recognise: filtering
out the unrecognised-kind pairs of any RawEvent leaves the decoded record
unchanged (so unrecognised kinds are silently ignored), and identity ids
outside the catalog resolve to the absent marker None in all three lookup
tables rather than failing. Termination and the full population of all
eight flags and eight value fields hold by construction, since
getDataFromMessage is a total function into CanonicalRecord. -/
theorem decode_total_ignores_unrecognised (ts : ℚ) (iso src : String) (ev : RawEvent)
    (m p : Nat) (hm : m ≠ MFRID_ENERGENIE)
    (hp4 : p ≠ PRODUCTID_MIHO004) (hp5 : p ≠ PRODUCTID_MIHO005)
    (hp6 : p ≠ PRODUCTID_MIHO006) (hp13 : p ≠ PRODUCTID_MIHO013)
    (hp32 : p ≠ PRODUCTID_MIHO032) (hp33 : p ≠ PRODUCTID_MIHO033) :
    getDataFromMessage ts iso src { ev with recs := ev.recs.filter isKnownParam }
      = getDataFromMessage ts iso src ev
    ∧ manufIdToName m = none ∧ prodIdToCode p = none ∧ prodIdToName p = none := by
  refine ⟨?_, ?_, ?_, ?_⟩
  · have hfold := foldl_decodeStep_filter_known ev.recs initialDecodeState
    simp [getDataFromMessage, hfold]
  · simp [manufIdToName, hm]
  · simp [prodIdToCode, hp4, hp5, hp6, hp13, hp32, hp33]
  · simp [prodIdToName, hp4, hp5, hp6, hp13, hp32, hp33]

/-- Witness for C6 at a concrete input: filtering the unrecognised pair out
of an event changes nothing, and id 99 is unknown to all three tables. -/
theorem decode_total_ignores_unrecognised_witness :
    getDataFromMessage 0 "" "" { unrecEvent with recs := unrecEvent.recs.filter isKnownParam }
      = getDataFromMessage 0 "" "" unrecEvent
    ∧ manufIdToName 99 = none ∧ prodIdToCode 99 = none ∧ prodIdToName 99 = none :=
  decode_total_ignores_unrecognised 0 "" "" unrecEvent 99 99 (by decide) (by decide)
    (by decide) (by decide) (by decide) (by decide) (by decide)

/-- C7: connect return codes 1, 2, 4 and 5 are classified permanent - the
callback logs the refusal reason and exits the process with status 1 -
while code 3 (server unavailable) is only logged and the process keeps
running, leaving reconnection to the client loop; code 0 logs success. -/
theorem mqttOnConnect_permanent_vs_retryable :
    (mqttOnConnect 0).exitCode = none
    ∧ (mqttOnConnect 0).logs = ["MQTT connected!"]
    ∧ (mqttOnConnect 1).exitCode = some 1
    ∧ (mqttOnConnect 1).logs
      = ["MQTT connection failed; code 1: refused - incorrect protocol version",
         "Permanent connection failure reason. Exiting."]
    ∧ (mqttOnConnect 2).exitCode = some 1
    ∧ (mqttOnConnect 2).logs
      = ["MQTT connection failed; code 2: refused - invalid client identifier",
         "Permanent connection failure reason. Exiting."]
    ∧ (mqttOnConnect 4).exitCode = some 1
    ∧ (mqttOnConnect 4).logs
      = ["MQTT connection failed; code 4: refused - bad username or password",
         "Permanent connection failure reason. Exiting."]
    ∧ (mqttOnConnect 5).exitCode = some 1
    ∧ (mqttOnConnect 5).logs
      = ["MQTT connection failed; code 5: refused - not authorised",
         "Permanent connection failure reason. Exiting."]
    ∧ (mqttOnConnect 3).exitCode = none
    ∧ (mqttOnConnect 3).logs
      = ["MQTT connection failed; code 3: refused - server unavailable"] := by
  decide

/-- C8 counterexample: the comparison at lines 161-163 lowercases the
environment value first, so the string MQTTV311 - which differs from both
supported tags - is accepted rather than fatal. -/
theorem parseMqttProtoVersion_case_insensitive :
    "MQTTV311" ≠ "MQTTv31" ∧ "MQTTV311" ≠ "MQTTv311"
    ∧ parseMqttProtoVersion (some ("MQTTV311")) = .ok .MQTTv311 := by
  decide

/-- C8 amended: absent the setting the default is MQTTv311; the two tags
are accepted, the comparison being case-insensitive (any value whose
lowercasing is mqttv31 or mqttv311 is accepted); every other value is
fatal at startup with the diagnostic message and exit status 1. -/
theorem parseMqttProtoVersion_spec (s : String)
    (h31 : strLower s ≠ "mqttv31") (h311 : strLower s ≠ "mqttv311") :
    parseMqttProtoVersion none = .ok .MQTTv311
    ∧ parseMqttProtoVersion (some ("MQTTv31")) = .ok .MQTTv31
    ∧ parseMqttProtoVersion (some ("MQTTv311")) = .ok .MQTTv311
    ∧ parseMqttProtoVersion (some s)
      = .fatalExit ("MQTT_PROTO_VERSION env var must be \x27MQTTv31\x27 or \x27MQTTv311\x27, not \x27"
          ++ s ++ "\x27!") 1 := by
  refine ⟨rfl, by decide, by decide, ?_⟩
  simp [parseMqttProtoVersion, h31, h311]

/-- Witness for the amended C8 at a concrete input: the value v5 is fatal
with status 1. -/
theorem parseMqttProtoVersion_spec_witness :
    parseMqttProtoVersion none = .ok .MQTTv311
    ∧ parseMqttProtoVersion (some ("MQTTv31")) = .ok .MQTTv31
    ∧ parseMqttProtoVersion (some ("MQTTv311")) = .ok .MQTTv311
    ∧ parseMqttProtoVersion (some ("v5"))
      = .fatalExit ("MQTT_PROTO_VERSION env var must be \x27MQTTv31\x27 or \x27MQTTv311\x27, not \x27"
          ++ "v5" ++ "\x27!") 1 :=
  parseMqttProtoVersion_spec ("v5") (by decide) (by decide)

/-- C9: decoding the same RawEvent twice with the same source label yields
records identical in every field except Timestamp and DateTime:
overwriting those two fields of the first with the second run's values
gives exactly the second run's record. -/
theorem decode_pure_up_to_timestamps (ts₁ ts₂ : ℚ) (iso₁ iso₂ src : String)
    (ev : RawEvent) :
    { getDataFromMessage ts₁ iso₁ src ev with Timestamp := ts₂, DateTime := iso₂ }
      = getDataFromMessage ts₂ iso₂ src ev := rfl

/-- C10: a connect return code outside the recognised 0-5 range is only
logged with the unrecognised-error-code message; the process does not exit
and the client loop keeps reconnecting. -/
theorem mqttOnConnect_unrecognised_code (rc : Nat) (h0 : rc ≠ 0) (h1 : rc ≠ 1)
    (h2 : rc ≠ 2) (h3 : rc ≠ 3) (h4 : rc ≠ 4) (h5 : rc ≠ 5) :
    (mqttOnConnect rc).exitCode = none
    ∧ (mqttOnConnect rc).logs
      = ["MQTT connection failed with unrecognised error code \x27"
          ++ toString rc ++ "\x27!"] := by
  simp [mqttOnConnect, h0, h1, h2, h3, h4, h5]

/-- Witness for C10 at the concrete return code 6. -/
theorem mqttOnConnect_unrecognised_code_witness :
    (mqttOnConnect 6).exitCode = none
    ∧ (mqttOnConnect 6).logs
      = ["MQTT connection failed with unrecognised error code \x27"
          ++ toString 6 ++ "\x27!"] :=
  mqttOnConnect_unrecognised_code 6 (by decide) (by decide) (by decide) (by decide)
    (by decide) (by decide)
